import Mathlib

/-!
Shallow embedding of `core/autocomplete/util/ManualTypingStatisticsService.ts`
(two services: `ManualTypingStatisticsService` and `AutocompleteStatisticsService`)
and proofs of the specified properties of the event-aggregation and delivery
pipeline: queue draining order, failed-batch requeueing and trimming, queue
capacity, retry/backoff schedules, error classification, timer behaviour,
error propagation, and the statistics accumulator.

JS numbers used as counters are modelled as `Int` (typing statistics) or `Nat`
(queue sizes, delays); the derived acceptance/cancel ratios as `ℚ`.  JS `Error`
values are modelled by their `name`/`message` strings (the only parts the code
inspects); a possibly-`null` error is an `Option JsError`.  The asynchronous
delivery outcome of one `uploadLog` call is an explicit
`Except JsError Unit` parameter, and the retry loop receives the per-attempt
outcomes as a function `Nat → Except JsError Unit`.  Armed timers are explicit
data (`Timer.interval` for `setInterval`, `Timer.oneShot` for `setTimeout`):
`clearInterval` on the stored handle is modelled by emptying the slot.
-/

namespace ManualTyping

/-- `ManualTypingStatistics` (source lines 7-12). -/
structure Statistics where
  totalCharactersTyped : Int
  totalLinesTyped : Int
  totalKeystrokes : Int
  lastTypingTime : Int
deriving Repr, DecidableEq

/-- `Position` (from `core/index`): a cursor position. -/
structure Position where
  line : Int
  character : Int
deriving Repr, DecidableEq

/-- `ManualTypingEvent` (source lines 14-23); the constant `type: "keystroke"`
tag is omitted since every event carries the same value. -/
structure MTEvent where
  timestamp : Int
  filepath : String
  fileExtension : String
  charactersAdded : Int
  linesAdded : Int
  position : Position
  text : String
deriving Repr, DecidableEq

/-- `ManualTypingConfig` (source lines 25-34). -/
structure Config where
  enabled : Bool
  reportEnabled : Bool
  reportInterval : Nat
  batchSize : Nat
  retryAttempts : Nat
  retryDelay : Nat
  maxRetryDelay : Nat
  requestTimeout : Nat
deriving Repr, DecidableEq

/-- `DEFAULT_CONFIG` (source lines 36-45). -/
def DEFAULT_CONFIG : Config :=
  { enabled := true
    reportEnabled := true
    reportInterval := 5 * 60 * 1000
    batchSize := 10
    retryAttempts := 3
    retryDelay := 1000
    maxRetryDelay := 30000
    requestTimeout := 10000 }

/-- `MAX_QUEUE_SIZE` (source line 67). -/
def MAX_QUEUE_SIZE : Nat := 1000

/-- `MAX_FAILED_EVENTS_MULTIPLIER` (source line 78). -/
def MAX_FAILED_EVENTS_MULTIPLIER : Nat := 2

/-- `CLEANUP_INTERVAL` (source line 66). -/
def CLEANUP_INTERVAL : Int := 5 * 60 * 1000

/-- A JS `Error` as far as the code inspects it: its `name` and `message`
(missing `message` is the empty string, matching `error.message ?? ""`). -/
structure JsError where
  name : String
  message : String
deriving Repr, DecidableEq

/-- `RETRYABLE_ERRORS` (source lines 70-77). -/
def RETRYABLE_ERRORS : List String :=
  ["AbortError", "timeout", "network", "ECONNRESET", "ENOTFOUND", "ECONNREFUSED"]

/-- Does `hay` start with `need`?  (Char-list helper for substring search.) -/
def leadMatches : List Char → List Char → Bool
  | [], _ => true
  | _ :: _, [] => false
  | c :: cs, d :: ds => c == d && leadMatches cs ds

/-- Does `need` occur as a contiguous substring of `hay`? -/
def hasSub (need : List Char) : List Char → Bool
  | [] => need.isEmpty
  | d :: ds => leadMatches need (d :: ds) || hasSub need ds

/-- JS `hay.includes(need)`. -/
def strHasSub (hay need : String) : Bool :=
  hasSub need.data hay.data

/-- JS `toLowerCase` on one character (ASCII range, which covers every string
the code compares). -/
def lowerChar (c : Char) : Char :=
  if 65 ≤ c.toNat ∧ c.toNat ≤ 90 then Char.ofNat (c.toNat + 32) else c

/-- JS `s.toLowerCase()`. -/
def lowerStr (s : String) : String := String.mk (s.data.map lowerChar)

/-- `isRetryableError` (source lines 584-596): retryable iff the error's
`name` is in `RETRYABLE_ERRORS`, or its lowercased `message` contains one of
those entries lowercased; a `null` error is not retryable. -/
def isRetryableError (error : Option JsError) : Bool :=
  match error with
  | none => false
  | some e =>
    let errorMessage := lowerStr e.message
    let errorName := e.name
    RETRYABLE_ERRORS.contains errorName ||
      RETRYABLE_ERRORS.any (fun r => strHasSub errorMessage (lowerStr r))

/-- An armed JS timer: `setInterval` or a one-shot `setTimeout`. -/
inductive Timer where
  | interval (ms : Nat)
  | oneShot (ms : Nat)
deriving Repr, DecidableEq

/-- Is the slot holding an armed one-shot timer? -/
def isOneShot : Option Timer → Bool
  | some (Timer.oneShot _) => true
  | _ => false

/-- The mutable fields of `ManualTypingStatisticsService` (source lines 50-78).
`reportTimer` holds the currently-armed timer (`none` after `clearInterval`). -/
structure ServiceState where
  statistics : Statistics
  config : Config
  reportQueue : List MTEvent
  failedEvents : List MTEvent
  reportTimer : Option Timer
  lastCleanupTime : Int
deriving Repr, DecidableEq

/-- `resetStatisticsAfterReport` (source lines 153-158): zeroes the totals but
keeps `lastTypingTime`. -/
def resetStatisticsAfterReport (st : Statistics) : Statistics :=
  { st with totalCharactersTyped := 0, totalLinesTyped := 0, totalKeystrokes := 0 }

/-- `startPeriodicReporting` (source lines 181-187): arms the periodic
interval timer when `reportEnabled`. -/
def startPeriodicReporting (s : ServiceState) : ServiceState :=
  if s.config.reportEnabled then
    { s with reportTimer := some (Timer.interval s.config.reportInterval) }
  else s

/-- The state of a fresh service (constructor, source lines 50-82). -/
def initialState : ServiceState :=
  startPeriodicReporting
    { statistics := ⟨0, 0, 0, 0⟩
      config := DEFAULT_CONFIG
      reportQueue := []
      failedEvents := []
      reportTimer := none
      lastCleanupTime := 0 }

/-- The synchronous drain prefix of `reportEvents` (source lines 192-202):
merge `failedEvents ++ reportQueue` (failed-first); if empty, return with no
batch and the state untouched; otherwise clear both queues and hand the
combined batch to the delivery attempt. -/
def reportEventsDrain (s : ServiceState) : Option (List MTEvent) × ServiceState :=
  let allEventsToReport := s.failedEvents ++ s.reportQueue
  if allEventsToReport.length = 0 then
    (none, s)
  else
    (some allEventsToReport, { s with reportQueue := [], failedEvents := [] })

/-- `reportEvents` (source lines 192-231), with the result of the awaited
`sendReport` call passed in as `outcome`.  Returns the new state, the batch
handed to `sendReport` (`none` when the merged queue was empty and the method
returned immediately with no delivery attempt), and the error the method
itself propagates to its caller — always `Except.ok ()`, because the `catch`
block swallows every delivery failure after requeueing the batch. -/
def reportEvents (s : ServiceState) (outcome : Except (Option JsError) Unit) :
    ServiceState × Option (List MTEvent) × Except (Option JsError) Unit :=
  let allEventsToReport := s.failedEvents ++ s.reportQueue
  if allEventsToReport.length = 0 then
    (s, none, Except.ok ())
  else
    let s1 : ServiceState := { s with reportQueue := [], failedEvents := [] }
    match outcome with
    | Except.ok _ =>
      ({ s1 with statistics := resetStatisticsAfterReport s1.statistics },
        some allEventsToReport, Except.ok ())
    | Except.error _ =>
      let failedEvents := s1.failedEvents ++ allEventsToReport
      let maxFailedEvents := s1.config.batchSize * MAX_FAILED_EVENTS_MULTIPLIER
      let failedEvents :=
        if failedEvents.length > maxFailedEvents then
          failedEvents.drop (failedEvents.length - maxFailedEvents)
        else failedEvents
      ({ s1 with failedEvents := failedEvents }, some allEventsToReport, Except.ok ())

/-- `forceReport` (source lines 463-465): awaits `reportEvents`. -/
def forceReport (s : ServiceState) (outcome : Except (Option JsError) Unit) :
    ServiceState × Option (List MTEvent) × Except (Option JsError) Unit :=
  reportEvents s outcome

/-- `queueForReporting` (source lines 163-176): evict the oldest entry when the
queue is at `MAX_QUEUE_SIZE`, append the event, and when the queue reaches
`batchSize` fire the flush, whose synchronous prefix drains the queues (the
drained batch is the in-flight delivery).  Returns the new state, whether an
eviction happened, and the drained batch (if the size trigger fired). -/
def queueForReporting (s : ServiceState) (event : MTEvent) :
    ServiceState × Bool × Option (List MTEvent) :=
  let se : ServiceState × Bool :=
    if s.reportQueue.length ≥ MAX_QUEUE_SIZE then
      ({ s with reportQueue := s.reportQueue.tail }, true)
    else (s, false)
  let s1 : ServiceState := { se.1 with reportQueue := se.1.reportQueue ++ [event] }
  if s1.reportQueue.length ≥ s1.config.batchSize then
    ((reportEventsDrain s1).2, se.2, (reportEventsDrain s1).1)
  else
    (s1, se.2, none)

/-- `validateInput` (source lines 504-541). -/
def validateInput (filepath : String) (charactersAdded linesAdded : Int)
    (text : String) : Bool :=
  if filepath = "" then false
  else if charactersAdded < 0 || linesAdded < 0 then false
  else if charactersAdded > 10000 || linesAdded > 1000 then false
  else if text ≠ "" && (text.length : Int) ≠ charactersAdded then false
  else true

/-- `updateStatisticsBatch` (source lines 546-556). -/
def updateStatisticsBatch (st : Statistics) (charactersAdded linesAdded now : Int) :
    Statistics :=
  { st with
    totalCharactersTyped := st.totalCharactersTyped + charactersAdded
    totalLinesTyped := st.totalLinesTyped + linesAdded
    totalKeystrokes := st.totalKeystrokes + 1
    lastTypingTime := now }

/-- `performPeriodicCleanup` (source lines 561-579): at most every
`CLEANUP_INTERVAL`, drop failed events older than 24 hours. -/
def performPeriodicCleanup (s : ServiceState) (now : Int) : ServiceState :=
  if now - s.lastCleanupTime < CLEANUP_INTERVAL then s
  else
    let maxAge : Int := 24 * 60 * 60 * 1000
    let validFailedEvents := s.failedEvents.filter (fun ev => now - ev.timestamp < maxAge)
    { s with lastCleanupTime := now, failedEvents := validFailedEvents }

/-- `trackManualTyping` (source lines 95-129): validate, update the statistics,
enqueue the event, and run the periodic cleanup. -/
def trackManualTyping (s : ServiceState) (filepath fileExtension : String)
    (charactersAdded linesAdded : Int) (position : Position) (text : String)
    (now : Int) : ServiceState × Bool × Option (List MTEvent) :=
  if !validateInput filepath charactersAdded linesAdded text then (s, false, none)
  else
    let s := { s with statistics := updateStatisticsBatch s.statistics charactersAdded linesAdded now }
    let event : MTEvent :=
      { timestamp := now, filepath := filepath, fileExtension := fileExtension
        charactersAdded := charactersAdded, linesAdded := linesAdded
        position := position, text := text }
    let (s, evicted, batch) := queueForReporting s event
    (performPeriodicCleanup s now, evicted, batch)

/-- A partial configuration (`Partial<ManualTypingConfig>`); `none` keeps the
current value of the field. -/
structure ConfigPatch where
  enabled : Option Bool := none
  reportEnabled : Option Bool := none
  reportInterval : Option Nat := none
  batchSize : Option Nat := none
  retryAttempts : Option Nat := none
  retryDelay : Option Nat := none
  maxRetryDelay : Option Nat := none
  requestTimeout : Option Nat := none
deriving Repr

/-- JS spread `{...this.config, ...config}`. -/
def mergeConfig (c : Config) (p : ConfigPatch) : Config :=
  { enabled := p.enabled.getD c.enabled
    reportEnabled := p.reportEnabled.getD c.reportEnabled
    reportInterval := p.reportInterval.getD c.reportInterval
    batchSize := p.batchSize.getD c.batchSize
    retryAttempts := p.retryAttempts.getD c.retryAttempts
    retryDelay := p.retryDelay.getD c.retryDelay
    maxRetryDelay := p.maxRetryDelay.getD c.maxRetryDelay
    requestTimeout := p.requestTimeout.getD c.requestTimeout }

/-- `configure` (source lines 447-458): merge the patch, `clearInterval` any
armed timer (the slot becomes empty), and re-arm the periodic timer when
reporting remains enabled. -/
def configure (s : ServiceState) (p : ConfigPatch) : ServiceState :=
  let s := { s with config := mergeConfig s.config p }
  let s := { s with reportTimer := none }
  if s.config.reportEnabled then startPeriodicReporting s else s

/-- `sendReport` retry loop (source lines 236-267), unrolled over the remaining
attempts.  `upload k` is the outcome of the `uploadLog` call on attempt `k`.
Returns the list of backoff waits performed (in order) and the final result:
`Except.ok ()` on a successful attempt, otherwise the thrown error (the
possibly-`null` `lastError` when the loop exhausts without running). -/
def sendReportGo (cfg : Config) (upload : Nat → Except JsError Unit) :
    Nat → Nat → Option JsError → List Nat × Except (Option JsError) Unit
  | 0, _, lastError => ([], Except.error lastError)
  | remaining + 1, attempt, _ =>
    match upload attempt with
    | Except.ok _ => ([], Except.ok ())
    | Except.error e =>
      if isRetryableError (some e) then
        if remaining = 0 then
          sendReportGo cfg upload remaining (attempt + 1) (some e)
        else
          let delay := min (cfg.retryDelay * 2 ^ (attempt - 1)) cfg.maxRetryDelay
          let rest := sendReportGo cfg upload remaining (attempt + 1) (some e)
          (delay :: rest.1, rest.2)
      else
        ([], Except.error (some e))

/-- `sendReport` (source lines 236-267): attempts `1..retryAttempts`. -/
def sendReport (cfg : Config) (upload : Nat → Except JsError Unit) :
    List Nat × Except (Option JsError) Unit :=
  sendReportGo cfg upload cfg.retryAttempts 1 none

end ManualTyping

namespace Autocomplete

open ManualTyping (JsError Timer)

/-- `AutocompleteStatistics` (source lines 604-610); the derived rates are
modelled as exact rationals. -/
structure Statistics where
  tabAccepts : Nat
  escCancels : Nat
  totalSuggestions : Nat
  acceptanceRate : ℚ
  cancelRate : ℚ
deriving Repr, DecidableEq

/-- Accept/cancel tag of an interaction event. -/
inductive InteractionType where
  | accept
  | cancel
deriving Repr, DecidableEq

/-- `AutocompleteInteractionEvent` (source lines 612-623); the ISO timestamp
string is modelled by the underlying clock value. -/
structure InteractionEvent where
  type : InteractionType
  completionId : String
  timestamp : Nat
  filepath : String
  fileExtension : String
  modelName : String
  modelProvider : String
  completionLength : Nat
  pfxLength : Nat
  suggestionDisplayTime : Option Nat
deriving Repr, DecidableEq

/-- `ReportConfig` (source lines 625-631); note: no `maxRetryDelay` field. -/
structure ReportConfig where
  enabled : Bool
  batchSize : Nat
  reportInterval : Nat
  retryAttempts : Nat
  retryDelay : Nat
deriving Repr, DecidableEq

/-- The default `reportConfig` (source lines 659-665). -/
def defaultReportConfig : ReportConfig :=
  { enabled := true
    batchSize := 10
    reportInterval := 5 * 60 * 1000
    retryAttempts := 3
    retryDelay := 1000 }

/-- Value stored in `pendingSuggestions` (source lines 644-656). -/
structure PendingInfo where
  displayTime : Nat
  completionId : String
  filepath : String
  fileExtension : String
  modelName : String
  modelProvider : String
  completionLength : Nat
  pfxLength : Nat
deriving Repr, DecidableEq

/-- JS `Map.get`. -/
def mapGet (m : List (String × PendingInfo)) (k : String) : Option PendingInfo :=
  m.lookup k

/-- JS `Map.set` (insert or overwrite; a JS `Map` holds at most one entry per
key, so overwrite rewrites the matching entries in place). -/
def mapSet (m : List (String × PendingInfo)) (k : String) (v : PendingInfo) :
    List (String × PendingInfo) :=
  if (m.lookup k).isSome then
    m.map (fun p => if p.1 == k then (k, v) else p)
  else m ++ [(k, v)]

/-- JS `Map.delete`: removes the entry for the key (a JS `Map` has at most one). -/
def mapDelete (m : List (String × PendingInfo)) (k : String) :
    List (String × PendingInfo) :=
  m.filter (fun p => !(p.1 == k))

/-- The mutable fields of `AutocompleteStatisticsService` (source lines
634-669). -/
structure ServiceState where
  statistics : Statistics
  pendingSuggestions : List (String × PendingInfo)
  reportConfig : ReportConfig
  reportQueue : List InteractionEvent
  failedEvents : List InteractionEvent
  reportTimer : Option Timer
deriving Repr, DecidableEq

/-- `resetStatistics` (source lines 857-866): zeroes everything and clears the
pending-suggestion map. -/
def resetStatistics (s : ServiceState) : ServiceState :=
  { s with statistics := ⟨0, 0, 0, 0, 0⟩, pendingSuggestions := [] }

/-- `updateRates` (source lines 871-883). -/
def updateRates (st : Statistics) : Statistics :=
  let totalInteractions := st.tabAccepts + st.escCancels
  if totalInteractions > 0 then
    { st with
      acceptanceRate := (st.tabAccepts : ℚ) / (totalInteractions : ℚ)
      cancelRate := (st.escCancels : ℚ) / (totalInteractions : ℚ) }
  else
    { st with acceptanceRate := 0, cancelRate := 0 }

/-- `startPeriodicReporting` (source lines 912-920). -/
def startPeriodicReporting (s : ServiceState) : ServiceState :=
  if !s.reportConfig.enabled then s
  else { s with reportTimer := some (Timer.interval s.reportConfig.reportInterval) }

/-- The state of a fresh service (constructor, source lines 636-672). -/
def initialState : ServiceState :=
  startPeriodicReporting
    { statistics := ⟨0, 0, 0, 0, 0⟩
      pendingSuggestions := []
      reportConfig := defaultReportConfig
      reportQueue := []
      failedEvents := []
      reportTimer := none }

/-- The synchronous drain prefix of `flushReportQueue` (source lines 925-934):
merge `failedEvents ++ reportQueue` (failed-first); if empty return with no
batch; otherwise clear both queues and hand the batch to the delivery. -/
def flushDrain (s : ServiceState) : Option (List InteractionEvent) × ServiceState :=
  let allEventsToReport := s.failedEvents ++ s.reportQueue
  if allEventsToReport.length = 0 then
    (none, s)
  else
    (some allEventsToReport, { s with reportQueue := [], failedEvents := [] })

/-- `flushReportQueue` (source lines 925-961), with the awaited `sendReport`
result passed in as `outcome`.  Returns the new state, the delivered batch
(`none` when the merged queue was empty and no delivery was attempted), and
the error propagated to the caller — always `Except.ok ()`: the `catch` block
swallows every failure after requeueing and trimming the failed queue. -/
def flushReportQueue (s : ServiceState) (outcome : Except (Option JsError) Unit) :
    ServiceState × Option (List InteractionEvent) × Except (Option JsError) Unit :=
  let allEventsToReport := s.failedEvents ++ s.reportQueue
  if allEventsToReport.length = 0 then
    (s, none, Except.ok ())
  else
    let s1 : ServiceState := { s with reportQueue := [], failedEvents := [] }
    match outcome with
    | Except.ok _ =>
      (resetStatistics s1, some allEventsToReport, Except.ok ())
    | Except.error _ =>
      let failedEvents := s1.failedEvents ++ allEventsToReport
      let maxFailedEvents := s1.reportConfig.batchSize * 2
      let failedEvents :=
        if failedEvents.length > maxFailedEvents then
          failedEvents.drop (failedEvents.length - maxFailedEvents)
        else failedEvents
      ({ s1 with failedEvents := failedEvents }, some allEventsToReport, Except.ok ())

/-- `forceReport` (source lines 1122-1124): awaits `flushReportQueue`. -/
def forceReport (s : ServiceState) (outcome : Except (Option JsError) Unit) :
    ServiceState × Option (List InteractionEvent) × Except (Option JsError) Unit :=
  flushReportQueue s outcome

/-- `queueForReporting` (source lines 896-907): when reporting is enabled,
append the event (no capacity bound, no eviction) and, when the queue reaches
`batchSize`, fire the flush, whose synchronous prefix drains the queues.
Returns the new state and the drained (in-flight) batch if the size trigger
fired. -/
def queueForReporting (s : ServiceState) (event : InteractionEvent) :
    ServiceState × Option (List InteractionEvent) :=
  if !s.reportConfig.enabled then (s, none)
  else
    let s1 := { s with reportQueue := s.reportQueue ++ [event] }
    if s1.reportQueue.length ≥ s1.reportConfig.batchSize then
      ((flushDrain s1).2, (flushDrain s1).1)
    else (s1, none)

/-- `trackSuggestionDisplayed` (source lines 754-776). -/
def trackSuggestionDisplayed (s : ServiceState) (completionId filepath
    fileExtension modelName modelProvider : String)
    (completionLength pfxLength : Nat) (now : Nat) : ServiceState :=
  let s := { s with
    statistics := { s.statistics with totalSuggestions := s.statistics.totalSuggestions + 1 }
    pendingSuggestions := mapSet s.pendingSuggestions completionId
      { displayTime := now, completionId := completionId, filepath := filepath
        fileExtension := fileExtension, modelName := modelName
        modelProvider := modelProvider, completionLength := completionLength
        pfxLength := pfxLength } }
  { s with statistics := updateRates s.statistics }

/-- `trackAccept` (source lines 781-805): a no-op when the id is not pending;
otherwise increments `tabAccepts`, removes the pending entry, builds the
accept event, queues it for reporting, and recomputes the rates.  Returns the
new state and the produced event (`none` on the no-op path). -/
def trackAccept (s : ServiceState) (completionId : String) (now : Nat) :
    ServiceState × Option InteractionEvent :=
  match mapGet s.pendingSuggestions completionId with
  | none => (s, none)
  | some pending =>
    let s := { s with
      statistics := { s.statistics with tabAccepts := s.statistics.tabAccepts + 1 }
      pendingSuggestions := mapDelete s.pendingSuggestions completionId }
    let displayTime := now - pending.displayTime
    let interactionEvent : InteractionEvent :=
      { type := InteractionType.accept, completionId := completionId
        timestamp := now, filepath := pending.filepath
        fileExtension := pending.fileExtension, modelName := pending.modelName
        modelProvider := pending.modelProvider
        completionLength := pending.completionLength
        pfxLength := pending.pfxLength
        suggestionDisplayTime := some displayTime }
    let s := (queueForReporting s interactionEvent).1
    ({ s with statistics := updateRates s.statistics }, some interactionEvent)

/-- `trackCancel` (source lines 810-834): the `cancel` twin of `trackAccept`. -/
def trackCancel (s : ServiceState) (completionId : String) (now : Nat) :
    ServiceState × Option InteractionEvent :=
  match mapGet s.pendingSuggestions completionId with
  | none => (s, none)
  | some pending =>
    let s := { s with
      statistics := { s.statistics with escCancels := s.statistics.escCancels + 1 }
      pendingSuggestions := mapDelete s.pendingSuggestions completionId }
    let displayTime := now - pending.displayTime
    let interactionEvent : InteractionEvent :=
      { type := InteractionType.cancel, completionId := completionId
        timestamp := now, filepath := pending.filepath
        fileExtension := pending.fileExtension, modelName := pending.modelName
        modelProvider := pending.modelProvider
        completionLength := pending.completionLength
        pfxLength := pending.pfxLength
        suggestionDisplayTime := some displayTime }
    let s := (queueForReporting s interactionEvent).1
    ({ s with statistics := updateRates s.statistics }, some interactionEvent)

/-- `sendReport` retry loop of `AutocompleteStatisticsService` (source lines
966-990), unrolled over the remaining attempts.  Unlike the manual-typing
variant it performs no retryability classification — every failure is retried
— and the wait before the next attempt is `retryDelay * attempt` (linear, with
no ceiling).  Returns the waits performed and the final result. -/
def sendReportGo (cfg : ReportConfig) (upload : Nat → Except JsError Unit) :
    Nat → Nat → Option JsError → List Nat × Except (Option JsError) Unit
  | 0, _, lastError => ([], Except.error lastError)
  | remaining + 1, attempt, _ =>
    match upload attempt with
    | Except.ok _ => ([], Except.ok ())
    | Except.error e =>
      if remaining = 0 then
        sendReportGo cfg upload remaining (attempt + 1) (some e)
      else
        let delay := cfg.retryDelay * attempt
        let rest := sendReportGo cfg upload remaining (attempt + 1) (some e)
        (delay :: rest.1, rest.2)

/-- `sendReport` (source lines 966-990): attempts `1..retryAttempts`. -/
def sendReport (cfg : ReportConfig) (upload : Nat → Except JsError Unit) :
    List Nat × Except (Option JsError) Unit :=
  sendReportGo cfg upload cfg.retryAttempts 1 none

/-- Partial `ReportConfig` for `configureReporting`. -/
structure ReportConfigPatch where
  enabled : Option Bool := none
  batchSize : Option Nat := none
  reportInterval : Option Nat := none
  retryAttempts : Option Nat := none
  retryDelay : Option Nat := none
deriving Repr

/-- JS spread `{...this.reportConfig, ...config}`. -/
def mergeReportConfig (c : ReportConfig) (p : ReportConfigPatch) : ReportConfig :=
  { enabled := p.enabled.getD c.enabled
    batchSize := p.batchSize.getD c.batchSize
    reportInterval := p.reportInterval.getD c.reportInterval
    retryAttempts := p.retryAttempts.getD c.retryAttempts
    retryDelay := p.retryDelay.getD c.retryDelay }

/-- `configureReporting` (source lines 1106-1117): merge the patch,
`clearInterval` any armed timer, and re-arm the periodic timer when enabled. -/
def configureReporting (s : ServiceState) (p : ReportConfigPatch) : ServiceState :=
  let s := { s with reportConfig := mergeReportConfig s.reportConfig p }
  let s := { s with reportTimer := none }
  if s.reportConfig.enabled then startPeriodicReporting s else s

/-- Iterated enqueue: `n` calls of `queueForReporting` with the same event. -/
def enqueueN (s : ServiceState) (e : InteractionEvent) : Nat → ServiceState
  | 0 => s
  | n + 1 => enqueueN ((queueForReporting s e).1) e n

end Autocomplete

/-- Decidable equality for `Except`, used to evaluate delivery results on
concrete inputs. -/
instance {ε α : Type} [DecidableEq ε] [DecidableEq α] : DecidableEq (Except ε α) :=
  fun x y =>
    match x, y with
    | Except.ok a, Except.ok b =>
      if h : a = b then isTrue (by rw [h])
      else isFalse (fun hc => h (Except.ok.inj hc))
    | Except.error a, Except.error b =>
      if h : a = b then isTrue (by rw [h])
      else isFalse (fun hc => h (Except.error.inj hc))
    | Except.ok _, Except.error _ => isFalse (fun hc => Except.noConfusion hc)
    | Except.error _, Except.ok _ => isFalse (fun hc => Except.noConfusion hc)

/-! Concrete sample data for witnesses and counterexamples. -/

/-- A sample manual-typing event. -/
def evA : ManualTyping.MTEvent :=
  { timestamp := 1, filepath := "a.ts", fileExtension := "ts"
    charactersAdded := 1, linesAdded := 0, position := ⟨0, 0⟩, text := "x" }

/-- A second sample manual-typing event. -/
def evB : ManualTyping.MTEvent := { evA with timestamp := 2, text := "y" }

/-- A third sample manual-typing event. -/
def evC : ManualTyping.MTEvent := { evA with timestamp := 3, text := "z" }

/-- A sample autocomplete interaction event. -/
def aevA : Autocomplete.InteractionEvent :=
  { type := Autocomplete.InteractionType.accept, completionId := "c1"
    timestamp := 5, filepath := "a.ts", fileExtension := "ts"
    modelName := "m", modelProvider := "p", completionLength := 4
    pfxLength := 2, suggestionDisplayTime := some 3 }

/-- A second sample autocomplete interaction event. -/
def aevB : Autocomplete.InteractionEvent :=
  { aevA with type := Autocomplete.InteractionType.cancel, completionId := "c2" }

/-- A third sample autocomplete interaction event. -/
def aevC : Autocomplete.InteractionEvent := { aevA with completionId := "c3" }

/-- An error whose name is `timeout` (retryable in both the code's and the
claim's classification). -/
def failTimeout : ManualTyping.JsError := { name := "timeout", message := "" }

/-- An upload that fails with `failTimeout` on every attempt. -/
def uploadAlwaysFails : Nat → Except ManualTyping.JsError Unit :=
  fun _ => Except.error failTimeout

/-- An autocomplete report config with `retryAttempts = 4`, `retryDelay = 1000`. -/
def cfgA4 : Autocomplete.ReportConfig :=
  { enabled := true, batchSize := 10, reportInterval := 5 * 60 * 1000
    retryAttempts := 4, retryDelay := 1000 }

/-- Modelled from the claim's wording: the tokens the claim says decide
retryability — timeout, connection-reset (`ECONNRESET`), host-not-found
(`ENOTFOUND`), connection-refused (`ECONNREFUSED`) — with no `AbortError` and
no `network` entry. -/
def claimRetryableTokens : List String :=
  ["timeout", "ECONNRESET", "ENOTFOUND", "ECONNREFUSED"]

/-- Modelled from the claim's wording: retryable exactly when the error is one
of the four named kinds or its message contains one of those tokens. -/
def claimRetryable (e : ManualTyping.JsError) : Bool :=
  claimRetryableTokens.contains e.name ||
    claimRetryableTokens.any (fun t =>
      ManualTyping.strHasSub (ManualTyping.lowerStr e.message) (ManualTyping.lowerStr t))

/-- An error that only mentions `network`: retryable per the code, not
retryable per the claim's token list. -/
def errNetwork : ManualTyping.JsError := { name := "SomeError", message := "network glitch" }

/-- A non-retryable error (auth class). -/
def errAuth : ManualTyping.JsError := { name := "AuthError", message := "forbidden" }

/-- An upload that fails with the non-retryable `errAuth` on every attempt. -/
def uploadAuthFails : Nat → Except ManualTyping.JsError Unit :=
  fun _ => Except.error errAuth

/-- An autocomplete service configured with `batchSize = 1002` (reachable via
`configureReporting`), starting from the fresh state. -/
def csAuto : Autocomplete.ServiceState :=
  Autocomplete.configureReporting Autocomplete.initialState { batchSize := some 1002 }

/-- A manual-typing service whose primary queue holds exactly 1000 events and
whose batch size (1002) keeps the size trigger from firing. -/
def wFullState : ManualTyping.ServiceState :=
  { ManualTyping.initialState with
      config := { ManualTyping.DEFAULT_CONFIG with batchSize := 1002 }
      reportQueue := List.replicate 1000 evA }

/-- A manual-typing service with one queued event. -/
def sQueued : ManualTyping.ServiceState :=
  { ManualTyping.initialState with reportQueue := [evA] }

/-- A fresh autocomplete service with one suggestion displayed. -/
def sPend : Autocomplete.ServiceState :=
  Autocomplete.trackSuggestionDisplayed Autocomplete.initialState
    "c1" "a.ts" "ts" "m" "p" 4 2 100


/-! ## C1 — flush drains `failed ++ primary`, clears both queues, and an empty
batch means no delivery attempt -/

/-- C1: In both services, a flush delivers exactly `failedEvents ++
reportQueue` (failed-first); when that merge is empty the flush returns
immediately, changing nothing and attempting no delivery; the drain clears
both queues before the delivery attempt begins; and flushing again right
after a drain (with no new enqueues) finds an empty batch and attempts no
delivery. -/
theorem c1_flush_drain_spec :
    ∀ (s : ManualTyping.ServiceState) (o o' : Except (Option ManualTyping.JsError) Unit)
      (t : Autocomplete.ServiceState) (p p' : Except (Option ManualTyping.JsError) Unit),
      ((ManualTyping.reportEvents s o).2.1 =
        if s.failedEvents ++ s.reportQueue = [] then none
        else some (s.failedEvents ++ s.reportQueue)) ∧
      (s.failedEvents ++ s.reportQueue = [] →
        ManualTyping.reportEvents s o = (s, none, Except.ok ())) ∧
      (ManualTyping.reportEventsDrain s).2.reportQueue = [] ∧
      (ManualTyping.reportEventsDrain s).2.failedEvents = [] ∧
      (ManualTyping.reportEventsDrain (ManualTyping.reportEventsDrain s).2).1 = none ∧
      (ManualTyping.reportEvents ((ManualTyping.reportEvents s (Except.ok ())).1) o').2.1 = none ∧
      ((Autocomplete.flushReportQueue t p).2.1 =
        if t.failedEvents ++ t.reportQueue = [] then none
        else some (t.failedEvents ++ t.reportQueue)) ∧
      (t.failedEvents ++ t.reportQueue = [] →
        Autocomplete.flushReportQueue t p = (t, none, Except.ok ())) ∧
      (Autocomplete.flushDrain t).2.reportQueue = [] ∧
      (Autocomplete.flushDrain t).2.failedEvents = [] ∧
      (Autocomplete.flushDrain (Autocomplete.flushDrain t).2).1 = none ∧
      (Autocomplete.flushReportQueue
        ((Autocomplete.flushReportQueue t (Except.ok ())).1) p').2.1 = none := by
  intro s o o' t p p'
  refine ⟨?_, ?_, ?_, ?_, ?_, ?_, ?_, ?_, ?_, ?_, ?_, ?_⟩
  · by_cases h : s.failedEvents ++ s.reportQueue = []
    · simp [ManualTyping.reportEvents, h]
    · have h' : ¬(s.failedEvents = [] ∧ s.reportQueue = []) :=
        fun hc => h (List.append_eq_nil.mpr hc)
      cases o <;> simp [ManualTyping.reportEvents, List.length_eq_zero, h, h']
  · intro h
    simp [ManualTyping.reportEvents, h]
  · by_cases h : s.failedEvents ++ s.reportQueue = []
    · obtain ⟨h1, h2⟩ := List.append_eq_nil.mp h
      simp [ManualTyping.reportEventsDrain, h, h1, h2]
    · have h' : ¬(s.failedEvents = [] ∧ s.reportQueue = []) :=
        fun hc => h (List.append_eq_nil.mpr hc)
      simp [ManualTyping.reportEventsDrain, List.length_eq_zero, h']
  · by_cases h : s.failedEvents ++ s.reportQueue = []
    · obtain ⟨h1, h2⟩ := List.append_eq_nil.mp h
      simp [ManualTyping.reportEventsDrain, h, h1, h2]
    · have h' : ¬(s.failedEvents = [] ∧ s.reportQueue = []) :=
        fun hc => h (List.append_eq_nil.mpr hc)
      simp [ManualTyping.reportEventsDrain, List.length_eq_zero, h']
  · by_cases h : s.failedEvents ++ s.reportQueue = []
    · obtain ⟨h1, h2⟩ := List.append_eq_nil.mp h
      simp [ManualTyping.reportEventsDrain, h, h1, h2]
    · have h' : ¬(s.failedEvents = [] ∧ s.reportQueue = []) :=
        fun hc => h (List.append_eq_nil.mpr hc)
      simp [ManualTyping.reportEventsDrain, List.length_eq_zero, h']
  · by_cases h : s.failedEvents ++ s.reportQueue = []
    · obtain ⟨h1, h2⟩ := List.append_eq_nil.mp h
      simp [ManualTyping.reportEvents, h1, h2]
    · have h' : ¬(s.failedEvents = [] ∧ s.reportQueue = []) :=
        fun hc => h (List.append_eq_nil.mpr hc)
      simp [ManualTyping.reportEvents, List.length_eq_zero, h']
  · by_cases h : t.failedEvents ++ t.reportQueue = []
    · simp [Autocomplete.flushReportQueue, h]
    · have h' : ¬(t.failedEvents = [] ∧ t.reportQueue = []) :=
        fun hc => h (List.append_eq_nil.mpr hc)
      cases p <;> simp [Autocomplete.flushReportQueue, List.length_eq_zero, h, h']
  · intro h
    simp [Autocomplete.flushReportQueue, h]
  · by_cases h : t.failedEvents ++ t.reportQueue = []
    · obtain ⟨h1, h2⟩ := List.append_eq_nil.mp h
      simp [Autocomplete.flushDrain, h, h1, h2]
    · have h' : ¬(t.failedEvents = [] ∧ t.reportQueue = []) :=
        fun hc => h (List.append_eq_nil.mpr hc)
      simp [Autocomplete.flushDrain, List.length_eq_zero, h']
  · by_cases h : t.failedEvents ++ t.reportQueue = []
    · obtain ⟨h1, h2⟩ := List.append_eq_nil.mp h
      simp [Autocomplete.flushDrain, h, h1, h2]
    · have h' : ¬(t.failedEvents = [] ∧ t.reportQueue = []) :=
        fun hc => h (List.append_eq_nil.mpr hc)
      simp [Autocomplete.flushDrain, List.length_eq_zero, h']
  · by_cases h : t.failedEvents ++ t.reportQueue = []
    · obtain ⟨h1, h2⟩ := List.append_eq_nil.mp h
      simp [Autocomplete.flushDrain, h, h1, h2]
    · have h' : ¬(t.failedEvents = [] ∧ t.reportQueue = []) :=
        fun hc => h (List.append_eq_nil.mpr hc)
      simp [Autocomplete.flushDrain, List.length_eq_zero, h']
  · by_cases h : t.failedEvents ++ t.reportQueue = []
    · obtain ⟨h1, h2⟩ := List.append_eq_nil.mp h
      simp [Autocomplete.flushReportQueue, h1, h2]
    · have h' : ¬(t.failedEvents = [] ∧ t.reportQueue = []) :=
        fun hc => h (List.append_eq_nil.mpr hc)
      simp [Autocomplete.flushReportQueue, List.length_eq_zero, h',
        Autocomplete.resetStatistics]

/-- C1 witness: flushing a fresh service (both queues empty) returns
immediately, with no delivery attempt and no state change. -/
theorem c1_flush_drain_spec_witness :
    ManualTyping.reportEvents ManualTyping.initialState (Except.ok ()) =
      (ManualTyping.initialState, none, Except.ok ()) ∧
    Autocomplete.flushReportQueue Autocomplete.initialState (Except.ok ()) =
      (Autocomplete.initialState, none, Except.ok ()) := by
  obtain ⟨-, h2, -, -, -, -, -, h8, -, -, -, -⟩ :=
    c1_flush_drain_spec ManualTyping.initialState (Except.ok ()) (Except.ok ())
      Autocomplete.initialState (Except.ok ()) (Except.ok ())
  exact ⟨h2 (by decide), h8 (by decide)⟩

/-! ## C2 — retry backoff schedules -/

/-- One-step unfolding of the manual-typing retry loop. -/
theorem mt_sendReportGo_succ (cfg : ManualTyping.Config)
    (upload : Nat → Except ManualTyping.JsError Unit) (r attempt : Nat)
    (le : Option ManualTyping.JsError) :
    ManualTyping.sendReportGo cfg upload (r + 1) attempt le =
      match upload attempt with
      | Except.ok _ => ([], Except.ok ())
      | Except.error e =>
        if ManualTyping.isRetryableError (some e) then
          if r = 0 then ManualTyping.sendReportGo cfg upload r (attempt + 1) (some e)
          else
            (min (cfg.retryDelay * 2 ^ (attempt - 1)) cfg.maxRetryDelay ::
              (ManualTyping.sendReportGo cfg upload r (attempt + 1) (some e)).1,
             (ManualTyping.sendReportGo cfg upload r (attempt + 1) (some e)).2)
        else ([], Except.error (some e)) := rfl

/-- One-step unfolding of the autocomplete retry loop. -/
theorem auto_sendReportGo_succ (cfg : Autocomplete.ReportConfig)
    (upload : Nat → Except ManualTyping.JsError Unit) (r attempt : Nat)
    (le : Option ManualTyping.JsError) :
    Autocomplete.sendReportGo cfg upload (r + 1) attempt le =
      match upload attempt with
      | Except.ok _ => ([], Except.ok ())
      | Except.error e =>
        if r = 0 then Autocomplete.sendReportGo cfg upload r (attempt + 1) (some e)
        else
          (cfg.retryDelay * attempt ::
            (Autocomplete.sendReportGo cfg upload r (attempt + 1) (some e)).1,
           (Autocomplete.sendReportGo cfg upload r (attempt + 1) (some e)).2) := rfl

/-- The manual-typing retry loop under an upload that fails with the same
retryable error on every attempt: one wait of
`min (retryDelay * 2 ^ (attempt - 1 + i)) maxRetryDelay` between consecutive
attempts, and the last error is thrown. -/
theorem mt_sendReportGo_allFail (cfg : ManualTyping.Config)
    (upload : Nat → Except ManualTyping.JsError Unit) (err : ManualTyping.JsError)
    (hup : ∀ k, upload k = Except.error err)
    (hretry : ManualTyping.isRetryableError (some err) = true) :
    ∀ remaining attempt le, 1 ≤ attempt → 1 ≤ remaining →
      ManualTyping.sendReportGo cfg upload remaining attempt le =
        ((List.range (remaining - 1)).map
          (fun i => min (cfg.retryDelay * 2 ^ (attempt - 1 + i)) cfg.maxRetryDelay),
         Except.error (some err)) := by
  intro remaining
  induction remaining with
  | zero => intro attempt le h1 h2; omega
  | succ r ih =>
    intro attempt le h1 _
    cases r with
    | zero =>
      rw [mt_sendReportGo_succ, hup attempt]
      simp [ManualTyping.sendReportGo, hretry]
    | succ r' =>
      have hrest := ih (attempt + 1) (some err) (by omega) (by omega)
      rw [mt_sendReportGo_succ, hup attempt]
      simp only [hretry, if_true, Nat.succ_ne_zero, if_false, hrest,
        Prod.mk.injEq]
      refine ⟨?_, trivial⟩
      have hr : r' + 1 + 1 - 1 = r' + 1 := by omega
      have hr2 : r' + 1 - 1 = r' := by omega
      rw [hr, hr2, List.range_succ_eq_map, List.map_cons, List.map_map]
      simp only [List.cons.injEq]
      refine ⟨by rw [Nat.add_zero], ?_⟩
      apply List.map_congr_left
      intro i _
      simp only [Function.comp_apply, Nat.succ_eq_add_one]
      have hx : attempt + 1 - 1 + i = attempt - 1 + (i + 1) := by omega
      rw [hx]

/-- The autocomplete retry loop under an upload that fails with the same error
on every attempt (no retryability check exists there): one wait of
`retryDelay * k` after attempt `k`, and the last error is thrown. -/
theorem auto_sendReportGo_allFail (cfg : Autocomplete.ReportConfig)
    (upload : Nat → Except ManualTyping.JsError Unit) (err : ManualTyping.JsError)
    (hup : ∀ k, upload k = Except.error err) :
    ∀ remaining attempt le, 1 ≤ remaining →
      Autocomplete.sendReportGo cfg upload remaining attempt le =
        ((List.range (remaining - 1)).map (fun i => cfg.retryDelay * (attempt + i)),
         Except.error (some err)) := by
  intro remaining
  induction remaining with
  | zero => intro attempt le h2; omega
  | succ r ih =>
    intro attempt le _
    cases r with
    | zero =>
      rw [auto_sendReportGo_succ, hup attempt]
      simp [Autocomplete.sendReportGo]
    | succ r' =>
      have hrest := ih (attempt + 1) (some err) (by omega)
      rw [auto_sendReportGo_succ, hup attempt]
      simp only [Nat.succ_ne_zero, if_false, hrest, Prod.mk.injEq]
      refine ⟨?_, trivial⟩
      have hr : r' + 1 + 1 - 1 = r' + 1 := by omega
      have hr2 : r' + 1 - 1 = r' := by omega
      rw [hr, hr2, List.range_succ_eq_map, List.map_cons, List.map_map]
      simp only [List.cons.injEq]
      refine ⟨by rw [Nat.add_zero], ?_⟩
      apply List.map_congr_left
      intro i _
      simp only [Function.comp_apply]
      congr 1
      omega

/-- C2 (amended): under a delivery that fails with the same retryable error on
every attempt, `ManualTypingStatisticsService.sendReport` waits exactly
`min (retryDelay * 2 ^ (k - 1)) maxRetryDelay` between attempts `k` and `k+1`
(pure exponential backoff with a ceiling) and throws the last error after
`retryAttempts` attempts, while `AutocompleteStatisticsService.sendReport`
waits `retryDelay * k` (linear, with no ceiling) between attempts `k` and
`k+1` and throws the last error after `retryAttempts` attempts. -/
theorem c2_backoff_schedule (cfg : ManualTyping.Config)
    (rcfg : Autocomplete.ReportConfig)
    (upload : Nat → Except ManualTyping.JsError Unit) (err : ManualTyping.JsError)
    (hup : ∀ k, upload k = Except.error err)
    (hretry : ManualTyping.isRetryableError (some err) = true) :
    (1 ≤ cfg.retryAttempts →
      ManualTyping.sendReport cfg upload =
        ((List.range (cfg.retryAttempts - 1)).map
          (fun i => min (cfg.retryDelay * 2 ^ i) cfg.maxRetryDelay),
         Except.error (some err))) ∧
    (1 ≤ rcfg.retryAttempts →
      Autocomplete.sendReport rcfg upload =
        ((List.range (rcfg.retryAttempts - 1)).map
          (fun i => rcfg.retryDelay * (i + 1)),
         Except.error (some err))) := by
  constructor
  · intro hN
    have h := mt_sendReportGo_allFail cfg upload err hup hretry
      cfg.retryAttempts 1 none (by omega) hN
    rw [ManualTyping.sendReport, h]
    simp
  · intro hN
    have h := auto_sendReportGo_allFail rcfg upload err hup
      rcfg.retryAttempts 1 none hN
    rw [Autocomplete.sendReport, h]
    simp only [Prod.mk.injEq]
    refine ⟨?_, trivial⟩
    apply List.map_congr_left
    intro i _
    congr 1
    omega

/-- C2 counterexample: with `retryAttempts = 4` and `retryDelay = 1000`,
`AutocompleteStatisticsService.sendReport` waits `[1000, 2000, 3000]` between
its four failing attempts, not the `[1000, 2000, 4000]` that the claimed
formula `min (1000 * 2 ^ (k - 1)) 30000` predicts. -/
theorem c2_counterexample :
    (Autocomplete.sendReport cfgA4 uploadAlwaysFails).1 = [1000, 2000, 3000] ∧
    (List.range 3).map (fun i => min (1000 * 2 ^ i) 30000) = [1000, 2000, 4000] ∧
    ([1000, 2000, 3000] : List Nat) ≠ [1000, 2000, 4000] := by
  refine ⟨by decide, by decide, by decide⟩

/-- C2 witness: with the default configs (`retryAttempts = 3`,
`retryDelay = 1000`, and for the manual-typing service
`maxRetryDelay = 30000`), an always-failing retryable delivery produces the
waits `1000ms` then `2000ms` before the third and final attempt, after which
the last error is thrown. -/
theorem c2_backoff_schedule_witness :
    ManualTyping.sendReport ManualTyping.DEFAULT_CONFIG uploadAlwaysFails =
      ([1000, 2000], Except.error (some failTimeout)) ∧
    Autocomplete.sendReport Autocomplete.defaultReportConfig uploadAlwaysFails =
      ([1000, 2000], Except.error (some failTimeout)) := by
  obtain ⟨h1, h2⟩ := c2_backoff_schedule ManualTyping.DEFAULT_CONFIG
    Autocomplete.defaultReportConfig uploadAlwaysFails failTimeout
    (fun _ => rfl) (by decide)
  constructor
  · rw [h1 (by decide)]
    decide
  · rw [h2 (by decide)]
    decide

/-! ## C3 — retryable-error classification and its use in the retry loops -/

/-- `leadMatches need hay` decides whether `hay` starts with `need`. -/
theorem leadMatches_iff (need : List Char) : ∀ hay : List Char,
    ManualTyping.leadMatches need hay = true ↔ ∃ r, hay = need ++ r := by
  induction need with
  | nil =>
    intro hay
    simp [ManualTyping.leadMatches]
  | cons c cs ih =>
    intro hay
    cases hay with
    | nil =>
      simp [ManualTyping.leadMatches]
    | cons d ds =>
      rw [show ManualTyping.leadMatches (c :: cs) (d :: ds) =
            (c == d && ManualTyping.leadMatches cs ds) from rfl]
      simp only [Bool.and_eq_true, beq_iff_eq, ih ds]
      constructor
      · rintro ⟨rfl, r, rfl⟩
        exact ⟨r, rfl⟩
      · rintro ⟨r, h⟩
        injection h with h1 h2
        exact ⟨h1.symm, r, h2⟩

/-- `hasSub need hay` decides whether `need` occurs as a contiguous substring
of `hay`. -/
theorem hasSub_iff (need : List Char) : ∀ hay : List Char,
    ManualTyping.hasSub need hay = true ↔ ∃ l r, hay = l ++ need ++ r := by
  intro hay
  induction hay with
  | nil =>
    rw [show ManualTyping.hasSub need [] = need.isEmpty from rfl]
    constructor
    · intro h
      exact ⟨[], [], by simp [List.isEmpty_iff.mp h]⟩
    · rintro ⟨l, r, h⟩
      have : l = [] ∧ need ++ r = [] := List.append_eq_nil.mp (by simpa using h.symm)
      have h2 := List.append_eq_nil.mp this.2
      simp [h2.1]
  | cons d ds ih =>
    rw [show ManualTyping.hasSub need (d :: ds) =
          (ManualTyping.leadMatches need (d :: ds) || ManualTyping.hasSub need ds) from rfl]
    simp only [Bool.or_eq_true, leadMatches_iff, ih]
    constructor
    · rintro (⟨r, hr⟩ | ⟨l, r, hr⟩)
      · exact ⟨[], r, by simpa using hr⟩
      · exact ⟨d :: l, r, by simp [hr]⟩
    · rintro ⟨l, r, h⟩
      cases l with
      | nil =>
        left
        exact ⟨r, by simpa using h⟩
      | cons x xs =>
        right
        injection h with h1 h2
        exact ⟨xs, r, h2⟩

/-- C3 counterexample: the error named `SomeError` with message
`network glitch` is classified retryable by the code (its message contains the
code's extra token `network`) even though it is not a timeout,
connection-reset, host-not-found, or connection-refused error and its message
contains none of those tokens — so the claimed classification is not exact. -/
theorem c3_counterexample :
    ManualTyping.isRetryableError (some errNetwork) = true ∧
    claimRetryable errNetwork = false := by
  constructor
  · decide
  · decide

/-- C3 (amended): an error is classified retryable exactly when its `name` is
one of `AbortError`, `timeout`, `network`, `ECONNRESET`, `ENOTFOUND`,
`ECONNREFUSED` or its lowercased message contains one of those entries
lowercased (`null` is never retryable); in
`ManualTypingStatisticsService.sendReport` a non-retryable failure aborts the
attempt loop immediately — no backoff wait, no further attempt — and
propagates, while `AutocompleteStatisticsService.sendReport` performs no
classification at all: any first-attempt failure is followed by a backoff
wait (and a further attempt) whenever at least two attempts are configured. -/
theorem c3_retryable_classification :
    (∀ e : ManualTyping.JsError,
      ManualTyping.isRetryableError (some e) = true ↔
        (e.name ∈ ManualTyping.RETRYABLE_ERRORS ∨
          ∃ t ∈ ManualTyping.RETRYABLE_ERRORS,
            ∃ l r, (ManualTyping.lowerStr e.message).data =
              l ++ (ManualTyping.lowerStr t).data ++ r)) ∧
    ManualTyping.isRetryableError none = false ∧
    (∀ (cfg : ManualTyping.Config) (upload : Nat → Except ManualTyping.JsError Unit)
        (e : ManualTyping.JsError),
      upload 1 = Except.error e →
      ManualTyping.isRetryableError (some e) = false →
      1 ≤ cfg.retryAttempts →
      ManualTyping.sendReport cfg upload = ([], Except.error (some e))) ∧
    (∀ (rcfg : Autocomplete.ReportConfig) (upload : Nat → Except ManualTyping.JsError Unit)
        (e : ManualTyping.JsError),
      upload 1 = Except.error e →
      2 ≤ rcfg.retryAttempts →
      (Autocomplete.sendReport rcfg upload).1.take 1 = [rcfg.retryDelay * 1]) := by
  refine ⟨?_, rfl, ?_, ?_⟩
  · intro e
    rw [show ManualTyping.isRetryableError (some e) =
          (ManualTyping.RETRYABLE_ERRORS.contains e.name ||
            ManualTyping.RETRYABLE_ERRORS.any
              (fun r => ManualTyping.strHasSub (ManualTyping.lowerStr e.message)
                (ManualTyping.lowerStr r))) from rfl]
    simp only [Bool.or_eq_true, List.any_eq_true, ManualTyping.strHasSub, hasSub_iff]
    constructor
    · rintro (h | ⟨t, ht, hsub⟩)
      · exact Or.inl (by simpa using h)
      · exact Or.inr ⟨t, ht, hsub⟩
    · rintro (h | ⟨t, ht, hsub⟩)
      · exact Or.inl (by simpa using h)
      · exact Or.inr ⟨t, ht, hsub⟩
  · intro cfg upload e hup1 hret hN
    obtain ⟨m, hm⟩ : ∃ m, cfg.retryAttempts = m + 1 := ⟨cfg.retryAttempts - 1, by omega⟩
    rw [ManualTyping.sendReport, hm, mt_sendReportGo_succ, hup1]
    simp [hret]
  · intro rcfg upload e hup1 hN
    obtain ⟨m, hm⟩ : ∃ m, rcfg.retryAttempts = m + 2 := ⟨rcfg.retryAttempts - 2, by omega⟩
    rw [Autocomplete.sendReport, hm, auto_sendReportGo_succ, hup1]
    simp

/-- C3 witness: the auth-class error is non-retryable, so the manual-typing
loop gives up after one attempt with no waits and throws it; the autocomplete
loop instead waits `retryDelay * 1` and keeps trying. -/
theorem c3_retryable_classification_witness :
    ManualTyping.isRetryableError (some failTimeout) = true ∧
    ManualTyping.sendReport ManualTyping.DEFAULT_CONFIG uploadAuthFails =
      ([], Except.error (some errAuth)) ∧
    (Autocomplete.sendReport Autocomplete.defaultReportConfig uploadAuthFails).1.take 1 =
      [1000] := by
  obtain ⟨hcls, -, hmt, hauto⟩ := c3_retryable_classification
  refine ⟨?_, ?_, ?_⟩
  · exact (hcls failTimeout).mpr (Or.inl (by decide))
  · exact hmt ManualTyping.DEFAULT_CONFIG uploadAuthFails errAuth rfl (by decide) (by decide)
  · have h := hauto Autocomplete.defaultReportConfig uploadAuthFails errAuth rfl (by decide)
    simpa [Autocomplete.defaultReportConfig] using h

/-! ## C4 — primary-queue capacity -/
/-- A drain never grows the primary queue. -/
theorem mt_drain_queue_le (x : ManualTyping.ServiceState) :
    (ManualTyping.reportEventsDrain x).2.reportQueue.length ≤ x.reportQueue.length := by
  unfold ManualTyping.reportEventsDrain
  dsimp only
  split
  · exact le_refl _
  · simp

/-- The manual-typing enqueue without eviction and without the size trigger. -/
theorem mt_queueForReporting_plain (s : ManualTyping.ServiceState)
    (e : ManualTyping.MTEvent)
    (hc : ¬s.reportQueue.length ≥ ManualTyping.MAX_QUEUE_SIZE)
    (hb : ¬(s.reportQueue ++ [e]).length ≥ s.config.batchSize) :
    ManualTyping.queueForReporting s e =
      ({ s with reportQueue := s.reportQueue ++ [e] }, false, none) := by
  unfold ManualTyping.queueForReporting
  dsimp only
  rw [if_neg hc]
  dsimp only
  rw [if_neg hb]

/-- The manual-typing enqueue at capacity without the size trigger: the
oldest entry is evicted, then the event is appended. -/
theorem mt_queueForReporting_evict (s : ManualTyping.ServiceState)
    (e : ManualTyping.MTEvent)
    (hc : s.reportQueue.length ≥ ManualTyping.MAX_QUEUE_SIZE)
    (hb : ¬(s.reportQueue.tail ++ [e]).length ≥ s.config.batchSize) :
    ManualTyping.queueForReporting s e =
      ({ s with reportQueue := s.reportQueue.tail ++ [e] }, true, none) := by
  unfold ManualTyping.queueForReporting
  dsimp only
  rw [if_pos hc]
  dsimp only
  rw [if_neg hb]

/-- Effect of one `queueForReporting` on the manual-typing primary queue:
the new queue length never exceeds `MAX_QUEUE_SIZE` when the old one did not. -/
theorem mt_queueForReporting_len (s : ManualTyping.ServiceState)
    (e : ManualTyping.MTEvent) (h : s.reportQueue.length ≤ ManualTyping.MAX_QUEUE_SIZE) :
    ((ManualTyping.queueForReporting s e).1).reportQueue.length ≤
      ManualTyping.MAX_QUEUE_SIZE := by
  have hmax : ManualTyping.MAX_QUEUE_SIZE = 1000 := rfl
  have htail : s.reportQueue.tail.length = s.reportQueue.length - 1 :=
    List.length_tail _
  unfold ManualTyping.queueForReporting
  dsimp only
  by_cases hc : s.reportQueue.length ≥ ManualTyping.MAX_QUEUE_SIZE
  · rw [if_pos hc]
    dsimp only
    split
    · refine le_trans (mt_drain_queue_le _) ?_
      dsimp only
      simp only [List.length_append, List.length_singleton, htail]
      omega
    · dsimp only
      simp only [List.length_append, List.length_singleton, htail]
      omega
  · rw [if_neg hc]
    dsimp only
    split
    · refine le_trans (mt_drain_queue_le _) ?_
      dsimp only
      simp only [List.length_append, List.length_singleton]
      omega
    · dsimp only
      simp only [List.length_append, List.length_singleton]
      omega

/-- Iterated autocomplete enqueue while strictly below the batch-size
trigger: the queue grows by one per call — no entry is ever evicted — and the
configuration is untouched. -/
theorem auto_enqueueN_len (e : Autocomplete.InteractionEvent) :
    ∀ (n : Nat) (s : Autocomplete.ServiceState),
      s.reportConfig.enabled = true →
      s.reportQueue.length + n < s.reportConfig.batchSize →
      (Autocomplete.enqueueN s e n).reportQueue.length = s.reportQueue.length + n ∧
      (Autocomplete.enqueueN s e n).reportConfig = s.reportConfig := by
  intro n
  induction n with
  | zero =>
    intro s h1 h2
    exact ⟨rfl, rfl⟩
  | succ k ih =>
    intro s h1 h2
    rw [show Autocomplete.enqueueN s e (k + 1) =
          Autocomplete.enqueueN ((Autocomplete.queueForReporting s e).1) e k from rfl]
    have hq : (Autocomplete.queueForReporting s e).1 =
        { s with reportQueue := s.reportQueue ++ [e] } := by
      have hnb : ¬(s.reportQueue ++ [e]).length ≥ s.reportConfig.batchSize := by
        simp only [List.length_append, List.length_singleton]
        omega
      unfold Autocomplete.queueForReporting
      rw [if_neg (by simp [h1])]
      dsimp only
      rw [if_neg hnb]
    rw [hq]
    have hrec := ih { s with reportQueue := s.reportQueue ++ [e] } h1
      (by simp only [List.length_append, List.length_singleton]; omega)
    refine ⟨?_, hrec.2⟩
    rw [hrec.1]
    simp only [List.length_append, List.length_singleton]
    omega

/-- C4 counterexample: with `batchSize = 1002`, 1001 enqueues into the
autocomplete service leave 1001 events in its primary queue — the claimed
capacity constant 1000 is exceeded and no eviction ever happened. -/
theorem c4_counterexample :
    (Autocomplete.enqueueN csAuto aevA 1001).reportQueue.length = 1001 ∧
    1000 < (Autocomplete.enqueueN csAuto aevA 1001).reportQueue.length := by
  have h := auto_enqueueN_len aevA 1001 csAuto (by decide) (by decide)
  have h0 : csAuto.reportQueue.length = 0 := by decide
  constructor
  · rw [h.1, h0]
  · rw [h.1, h0]
    omega

/-- C4 (amended): the 1000-event capacity with oldest-first eviction belongs
to `ManualTypingStatisticsService` only: there, `queueForReporting` preserves
`reportQueue.length ≤ 1000`; enqueuing at exactly the capacity (with a batch
size too large for the size trigger to drain) evicts exactly the oldest entry
and leaves the queue at exactly the capacity; and the other operations
(`reportEvents`, `configure`, `performPeriodicCleanup`) never grow the
primary queue.  `AutocompleteStatisticsService.queueForReporting` has no
capacity bound: below the batch-size trigger it appends without evicting
anything, so its queue length is bounded only by the configured batch size. -/
theorem c4_queue_capacity :
    (∀ (s : ManualTyping.ServiceState) (e : ManualTyping.MTEvent),
      s.reportQueue.length ≤ ManualTyping.MAX_QUEUE_SIZE →
      ((ManualTyping.queueForReporting s e).1).reportQueue.length ≤
        ManualTyping.MAX_QUEUE_SIZE) ∧
    (∀ (s : ManualTyping.ServiceState) (e : ManualTyping.MTEvent),
      s.reportQueue.length = ManualTyping.MAX_QUEUE_SIZE →
      ManualTyping.MAX_QUEUE_SIZE + 1 < s.config.batchSize →
      (ManualTyping.queueForReporting s e).2.1 = true ∧
      ((ManualTyping.queueForReporting s e).1).reportQueue =
        s.reportQueue.tail ++ [e] ∧
      ((ManualTyping.queueForReporting s e).1).reportQueue.length =
        ManualTyping.MAX_QUEUE_SIZE) ∧
    (∀ (s : ManualTyping.ServiceState) (o : Except (Option ManualTyping.JsError) Unit),
      ((ManualTyping.reportEvents s o).1).reportQueue.length ≤ s.reportQueue.length) ∧
    (∀ (s : ManualTyping.ServiceState) (p : ManualTyping.ConfigPatch),
      (ManualTyping.configure s p).reportQueue = s.reportQueue) ∧
    (∀ (s : ManualTyping.ServiceState) (now : Int),
      (ManualTyping.performPeriodicCleanup s now).reportQueue = s.reportQueue) ∧
    (∀ (t : Autocomplete.ServiceState) (a : Autocomplete.InteractionEvent),
      t.reportConfig.enabled = true →
      t.reportQueue.length + 1 < t.reportConfig.batchSize →
      ((Autocomplete.queueForReporting t a).1).reportQueue = t.reportQueue ++ [a]) := by
  refine ⟨mt_queueForReporting_len, ?_, ?_, ?_, ?_, ?_⟩
  · intro s e h hb
    have hmax : ManualTyping.MAX_QUEUE_SIZE = 1000 := rfl
    have htail : s.reportQueue.tail.length = s.reportQueue.length - 1 :=
      List.length_tail _
    have hc : s.reportQueue.length ≥ ManualTyping.MAX_QUEUE_SIZE := le_of_eq h.symm
    have hnb : ¬(s.reportQueue.tail ++ [e]).length ≥ s.config.batchSize := by
      simp only [List.length_append, List.length_singleton, htail]
      omega
    rw [mt_queueForReporting_evict s e hc hnb]
    refine ⟨rfl, rfl, ?_⟩
    simp only [List.length_append, List.length_singleton, htail]
    omega
  · intro s o
    by_cases h : (s.failedEvents ++ s.reportQueue).length = 0
    · simp [ManualTyping.reportEvents, h]
    · have h' : ¬(s.failedEvents = [] ∧ s.reportQueue = []) := by
        intro hc
        exact h (by simp [hc.1, hc.2])
      cases o <;>
        simp [ManualTyping.reportEvents, List.length_eq_zero, List.append_eq_nil, h']
  · intro s p
    simp only [ManualTyping.configure]
    split
    · simp [ManualTyping.startPeriodicReporting]
      split <;> rfl
    · rfl
  · intro s now
    simp only [ManualTyping.performPeriodicCleanup]
    split <;> rfl
  · intro t a ht hlen
    have hnb : ¬(t.reportQueue ++ [a]).length ≥ t.reportConfig.batchSize := by
      simp only [List.length_append, List.length_singleton]
      omega
    unfold Autocomplete.queueForReporting
    rw [if_neg (by simp [ht])]
    dsimp only
    rw [if_neg hnb]

/-- C4 witness: a manual-typing service whose queue holds exactly 1000 events
(batch size 1002): one more enqueue evicts exactly the oldest entry, leaving
the queue at exactly 1000 again. -/
theorem c4_queue_capacity_witness :
    ((ManualTyping.queueForReporting wFullState evB).1).reportQueue =
      List.replicate 999 evA ++ [evB] ∧
    ((ManualTyping.queueForReporting wFullState evB).1).reportQueue.length =
      1000 := by
  obtain ⟨-, h2, -, -, -, -⟩ := c4_queue_capacity
  have hq : wFullState.reportQueue = List.replicate 1000 evA := rfl
  have h := h2 wFullState evB
    (by rw [hq, List.length_replicate]; rfl)
    (by rw [show wFullState.config.batchSize = 1002 from rfl]; norm_num [ManualTyping.MAX_QUEUE_SIZE])
  refine ⟨?_, h.2.2⟩
  rw [h.2.1, hq]
  rw [show (List.replicate 1000 evA).tail = List.replicate 999 evA from rfl]

/-! ## C5 — failed batches are requeued, trimmed to `batchSize × 2`, and
replayed ahead of newer events -/

/-- The batch a flush hands to `sendReport`: `failed ++ primary`, or `none`
when that merge is empty. -/
theorem mt_reportEvents_batch (s : ManualTyping.ServiceState)
    (o : Except (Option ManualTyping.JsError) Unit) :
    (ManualTyping.reportEvents s o).2.1 =
      if (s.failedEvents ++ s.reportQueue).length = 0 then none
      else some (s.failedEvents ++ s.reportQueue) := by
  unfold ManualTyping.reportEvents
  dsimp only
  split
  · rfl
  · cases o <;> rfl


/-- The state a manual-typing flush leaves behind when the delivery fails:
primary queue empty, failed queue holding the batch trimmed from the front to
`batchSize * MAX_FAILED_EVENTS_MULTIPLIER`. -/
theorem mt_reportEvents_error (s : ManualTyping.ServiceState)
    (err : Option ManualTyping.JsError)
    (h : ¬(s.failedEvents ++ s.reportQueue).length = 0) :
    (ManualTyping.reportEvents s (Except.error err)).1 =
      { s with
          reportQueue := [],
          failedEvents :=
          if (s.failedEvents ++ s.reportQueue).length >
              s.config.batchSize * ManualTyping.MAX_FAILED_EVENTS_MULTIPLIER then
            (s.failedEvents ++ s.reportQueue).drop
              ((s.failedEvents ++ s.reportQueue).length -
                s.config.batchSize * ManualTyping.MAX_FAILED_EVENTS_MULTIPLIER)
          else s.failedEvents ++ s.reportQueue } := by
  unfold ManualTyping.reportEvents
  dsimp only
  rw [if_neg h]
  dsimp only
  rw [List.nil_append]

/-- The autocomplete analogue of `mt_reportEvents_batch`. -/
theorem auto_flush_batch (t : Autocomplete.ServiceState)
    (o : Except (Option ManualTyping.JsError) Unit) :
    (Autocomplete.flushReportQueue t o).2.1 =
      if (t.failedEvents ++ t.reportQueue).length = 0 then none
      else some (t.failedEvents ++ t.reportQueue) := by
  unfold Autocomplete.flushReportQueue
  dsimp only
  split
  · rfl
  · cases o <;> rfl

/-- The autocomplete analogue of `mt_reportEvents_error` (multiplier written
as the literal `2`, as in the source). -/
theorem auto_flush_error (t : Autocomplete.ServiceState)
    (err : Option ManualTyping.JsError)
    (h : ¬(t.failedEvents ++ t.reportQueue).length = 0) :
    (Autocomplete.flushReportQueue t (Except.error err)).1 =
      { t with
          reportQueue := [],
          failedEvents :=
          if (t.failedEvents ++ t.reportQueue).length >
              t.reportConfig.batchSize * 2 then
            (t.failedEvents ++ t.reportQueue).drop
              ((t.failedEvents ++ t.reportQueue).length -
                t.reportConfig.batchSize * 2)
          else t.failedEvents ++ t.reportQueue } := by
  unfold Autocomplete.flushReportQueue
  dsimp only
  rw [if_neg h]
  dsimp only
  rw [List.nil_append]

/-- C5: after a failed flush, the failed queue is exactly the drained batch
trimmed from the front to `batchSize × 2` (so it keeps the newest events and
never exceeds that bound), the primary queue is left empty, and a later flush
delivers the kept failed events ahead of anything enqueued after the
failure — in both services. -/
theorem c5_failed_batch_requeue :
    ∀ (s : ManualTyping.ServiceState) (err : Option ManualTyping.JsError)
      (c : ManualTyping.MTEvent) (o : Except (Option ManualTyping.JsError) Unit)
      (t : Autocomplete.ServiceState) (aerr : Option ManualTyping.JsError)
      (ac : Autocomplete.InteractionEvent) (p : Except (Option ManualTyping.JsError) Unit),
      ((ManualTyping.reportEvents s (Except.error err)).1).failedEvents =
        (s.failedEvents ++ s.reportQueue).drop
          ((s.failedEvents ++ s.reportQueue).length -
            s.config.batchSize * ManualTyping.MAX_FAILED_EVENTS_MULTIPLIER) ∧
      ((ManualTyping.reportEvents s (Except.error err)).1).failedEvents.length ≤
        s.config.batchSize * ManualTyping.MAX_FAILED_EVENTS_MULTIPLIER ∧
      ((ManualTyping.reportEvents s (Except.error err)).1).failedEvents <:+
        s.failedEvents ++ s.reportQueue ∧
      ((ManualTyping.reportEvents s (Except.error err)).1).reportQueue = [] ∧
      (ManualTyping.reportEvents
        { (ManualTyping.reportEvents s (Except.error err)).1 with
            reportQueue := [c] } o).2.1 =
        some (((ManualTyping.reportEvents s (Except.error err)).1).failedEvents ++ [c]) ∧
      ((Autocomplete.flushReportQueue t (Except.error aerr)).1).failedEvents =
        (t.failedEvents ++ t.reportQueue).drop
          ((t.failedEvents ++ t.reportQueue).length - t.reportConfig.batchSize * 2) ∧
      ((Autocomplete.flushReportQueue t (Except.error aerr)).1).failedEvents.length ≤
        t.reportConfig.batchSize * 2 ∧
      ((Autocomplete.flushReportQueue t (Except.error aerr)).1).failedEvents <:+
        t.failedEvents ++ t.reportQueue ∧
      ((Autocomplete.flushReportQueue t (Except.error aerr)).1).reportQueue = [] ∧
      (Autocomplete.flushReportQueue
        { (Autocomplete.flushReportQueue t (Except.error aerr)).1 with
            reportQueue := [ac] } p).2.1 =
        some (((Autocomplete.flushReportQueue t (Except.error aerr)).1).failedEvents ++ [ac]) := by
  intro s err c o t aerr ac p
  have hmt : ∀ (x : ManualTyping.ServiceState),
      ((ManualTyping.reportEvents x (Except.error err)).1).failedEvents =
        (x.failedEvents ++ x.reportQueue).drop
          ((x.failedEvents ++ x.reportQueue).length -
            x.config.batchSize * ManualTyping.MAX_FAILED_EVENTS_MULTIPLIER) ∧
      ((ManualTyping.reportEvents x (Except.error err)).1).reportQueue = [] := by
    intro x
    by_cases h : (x.failedEvents ++ x.reportQueue).length = 0
    · obtain ⟨h1, h2⟩ := List.append_eq_nil.mp (List.length_eq_zero.mp h)
      have hx : ManualTyping.reportEvents x (Except.error err) =
          (x, none, Except.ok ()) := by
        unfold ManualTyping.reportEvents
        dsimp only
        rw [if_pos h]
      rw [hx]
      simp [h1, h2]
    · rw [mt_reportEvents_error x err h]
      refine ⟨?_, rfl⟩
      dsimp only
      split
      · rfl
      · next hle =>
        rw [Nat.sub_eq_zero_of_le (by omega), List.drop_zero]
  have hauto : ∀ (x : Autocomplete.ServiceState),
      ((Autocomplete.flushReportQueue x (Except.error aerr)).1).failedEvents =
        (x.failedEvents ++ x.reportQueue).drop
          ((x.failedEvents ++ x.reportQueue).length - x.reportConfig.batchSize * 2) ∧
      ((Autocomplete.flushReportQueue x (Except.error aerr)).1).reportQueue = [] := by
    intro x
    by_cases h : (x.failedEvents ++ x.reportQueue).length = 0
    · obtain ⟨h1, h2⟩ := List.append_eq_nil.mp (List.length_eq_zero.mp h)
      have hx : Autocomplete.flushReportQueue x (Except.error aerr) =
          (x, none, Except.ok ()) := by
        unfold Autocomplete.flushReportQueue
        dsimp only
        rw [if_pos h]
      rw [hx]
      simp [h1, h2]
    · rw [auto_flush_error x aerr h]
      refine ⟨?_, rfl⟩
      dsimp only
      split
      · rfl
      · next hle =>
        rw [Nat.sub_eq_zero_of_le (by omega), List.drop_zero]
  obtain ⟨hs1, hs2⟩ := hmt s
  obtain ⟨ht1, ht2⟩ := hauto t
  refine ⟨hs1, ?_, ?_, hs2, ?_, ht1, ?_, ?_, ht2, ?_⟩
  · rw [hs1, List.length_drop]
    omega
  · rw [hs1]
    exact List.drop_suffix _ _
  · rw [mt_reportEvents_batch]
    dsimp only
    rw [if_neg (by simp)]
  · rw [ht1, List.length_drop]
    omega
  · rw [ht1]
    exact List.drop_suffix _ _
  · rw [auto_flush_batch]
    dsimp only
    rw [if_neg (by simp)]

/-! ## C6 — no delayed single-event flush timer exists -/

/-- A drain never touches the timer slot. -/
theorem mt_drain_timer (x : ManualTyping.ServiceState) :
    (ManualTyping.reportEventsDrain x).2.reportTimer = x.reportTimer := by
  unfold ManualTyping.reportEventsDrain
  dsimp only
  split <;> rfl

/-- The autocomplete drain never touches the timer slot. -/
theorem auto_drain_timer (x : Autocomplete.ServiceState) :
    (Autocomplete.flushDrain x).2.reportTimer = x.reportTimer := by
  unfold Autocomplete.flushDrain
  dsimp only
  split <;> rfl

/-- C6 counterexample: enqueuing into the fresh manual-typing service — whose
queue is empty — leaves the timer slot exactly as it was (the periodic
interval timer): no one-shot delayed-flush timer is armed, because no such
mechanism exists in the code. -/
theorem c6_counterexample :
    ManualTyping.initialState.reportQueue = [] ∧
    (ManualTyping.queueForReporting ManualTyping.initialState evA).1.reportTimer =
      ManualTyping.initialState.reportTimer ∧
    ManualTyping.isOneShot
      ((ManualTyping.queueForReporting ManualTyping.initialState evA).1.reportTimer) =
      false := by
  refine ⟨rfl, by decide, by decide⟩

/-- C6 (amended): neither service has a delayed single-event flush trigger.
Enqueuing (into an empty queue or otherwise) never changes the timer slot,
flushing never changes the timer slot, and reconfiguring cancels the armed
timer and re-arms only the periodic interval timer (when reporting remains
enabled) — never a one-shot timer. -/
theorem c6_no_delayed_timer :
    (∀ (s : ManualTyping.ServiceState) (e : ManualTyping.MTEvent),
      ((ManualTyping.queueForReporting s e).1).reportTimer = s.reportTimer) ∧
    (∀ (s : ManualTyping.ServiceState) (o : Except (Option ManualTyping.JsError) Unit),
      ((ManualTyping.reportEvents s o).1).reportTimer = s.reportTimer) ∧
    (∀ (s : ManualTyping.ServiceState) (p : ManualTyping.ConfigPatch),
      (ManualTyping.configure s p).reportTimer =
        (if (ManualTyping.mergeConfig s.config p).reportEnabled then
          some (ManualTyping.Timer.interval
            (ManualTyping.mergeConfig s.config p).reportInterval)
        else none)) ∧
    (∀ (t : Autocomplete.ServiceState) (a : Autocomplete.InteractionEvent),
      ((Autocomplete.queueForReporting t a).1).reportTimer = t.reportTimer) ∧
    (∀ (t : Autocomplete.ServiceState) (p : Autocomplete.ReportConfigPatch),
      (Autocomplete.configureReporting t p).reportTimer =
        (if (Autocomplete.mergeReportConfig t.reportConfig p).enabled then
          some (ManualTyping.Timer.interval
            (Autocomplete.mergeReportConfig t.reportConfig p).reportInterval)
        else none)) := by
  refine ⟨?_, ?_, ?_, ?_, ?_⟩
  · intro s e
    unfold ManualTyping.queueForReporting
    dsimp only
    by_cases hc : s.reportQueue.length ≥ ManualTyping.MAX_QUEUE_SIZE
    · rw [if_pos hc]
      dsimp only
      split
      · dsimp only
        rw [mt_drain_timer]
      · rfl
    · rw [if_neg hc]
      dsimp only
      split
      · dsimp only
        rw [mt_drain_timer]
      · rfl
  · intro s o
    unfold ManualTyping.reportEvents
    dsimp only
    split
    · rfl
    · cases o <;> rfl
  · intro s p
    unfold ManualTyping.configure ManualTyping.startPeriodicReporting
    dsimp only
    split
    · rfl
    · rfl
  · intro t a
    unfold Autocomplete.queueForReporting
    dsimp only
    split
    · rfl
    · split
      · dsimp only
        rw [auto_drain_timer]
      · rfl
  · intro t p
    unfold Autocomplete.configureReporting Autocomplete.startPeriodicReporting
    dsimp only
    split
    · next h => rw [if_neg (by simp [h])]
    · rfl


/-! ## C7 — no operation surfaces a delivery rejection -/

/-- C7 counterexample: a `forceReport` whose delivery fails (the batch lands in
the failed queue) still resolves with `ok` — it does not reject with the
delivery error, because `reportEvents` catches every delivery failure. -/
theorem c7_counterexample :
    (ManualTyping.forceReport sQueued (Except.error (some errAuth))).1.failedEvents =
      [evA] ∧
    (ManualTyping.forceReport sQueued (Except.error (some errAuth))).2.2 =
      Except.ok () ∧
    (ManualTyping.forceReport sQueued (Except.error (some errAuth))).2.2 ≠
      Except.error (some errAuth) := by
  refine ⟨by decide, by decide, by decide⟩

/-- C7 (amended): producer-facing calls never throw for delivery problems, and
neither does `forceReport`: in both services the flush catches every delivery
failure internally (requeueing the batch), so the promise returned by
`forceReport` always resolves — no operation surfaces a delivery rejection to
its caller. -/
theorem c7_no_rejection_surface :
    (∀ (s : ManualTyping.ServiceState) (o : Except (Option ManualTyping.JsError) Unit),
      (ManualTyping.reportEvents s o).2.2 = Except.ok ()) ∧
    (∀ (s : ManualTyping.ServiceState) (o : Except (Option ManualTyping.JsError) Unit),
      (ManualTyping.forceReport s o).2.2 = Except.ok ()) ∧
    (∀ (t : Autocomplete.ServiceState) (o : Except (Option ManualTyping.JsError) Unit),
      (Autocomplete.flushReportQueue t o).2.2 = Except.ok ()) ∧
    (∀ (t : Autocomplete.ServiceState) (o : Except (Option ManualTyping.JsError) Unit),
      (Autocomplete.forceReport t o).2.2 = Except.ok ()) := by
  have hmt : ∀ (s : ManualTyping.ServiceState) (o : Except (Option ManualTyping.JsError) Unit),
      (ManualTyping.reportEvents s o).2.2 = Except.ok () := by
    intro s o
    unfold ManualTyping.reportEvents
    dsimp only
    split
    · rfl
    · cases o <;> rfl
  have hauto : ∀ (t : Autocomplete.ServiceState) (o : Except (Option ManualTyping.JsError) Unit),
      (Autocomplete.flushReportQueue t o).2.2 = Except.ok () := by
    intro t o
    unfold Autocomplete.flushReportQueue
    dsimp only
    split
    · rfl
    · cases o <;> rfl
  exact ⟨hmt, fun s o => hmt s o, hauto, fun t o => hauto t o⟩

/-! ## C8 — acceptance and cancel rates -/

/-- `updateRates` never changes the counters themselves. -/
theorem updateRates_counters (st : Autocomplete.Statistics) :
    (Autocomplete.updateRates st).tabAccepts = st.tabAccepts ∧
    (Autocomplete.updateRates st).escCancels = st.escCancels := by
  unfold Autocomplete.updateRates
  dsimp only
  split <;> exact ⟨rfl, rfl⟩

/-- C8: after `updateRates`, whenever `tabAccepts + escCancels > 0` the
acceptance rate equals `tabAccepts / (tabAccepts + escCancels)`, the cancel
rate equals `escCancels / (tabAccepts + escCancels)`, and the two sum to 1;
when `tabAccepts + escCancels = 0` both rates are 0.  The counters are
untouched. -/
theorem c8_rates (st : Autocomplete.Statistics) :
    ((Autocomplete.updateRates st).tabAccepts = st.tabAccepts ∧
      (Autocomplete.updateRates st).escCancels = st.escCancels) ∧
    (st.tabAccepts + st.escCancels > 0 →
      (Autocomplete.updateRates st).acceptanceRate =
        (st.tabAccepts : ℚ) / ((st.tabAccepts + st.escCancels : Nat) : ℚ) ∧
      (Autocomplete.updateRates st).cancelRate =
        (st.escCancels : ℚ) / ((st.tabAccepts + st.escCancels : Nat) : ℚ) ∧
      (Autocomplete.updateRates st).acceptanceRate +
        (Autocomplete.updateRates st).cancelRate = 1) ∧
    (st.tabAccepts + st.escCancels = 0 →
      (Autocomplete.updateRates st).acceptanceRate = 0 ∧
      (Autocomplete.updateRates st).cancelRate = 0) := by
  refine ⟨updateRates_counters st, ?_, ?_⟩
  · intro h
    have hne : ((st.tabAccepts + st.escCancels : Nat) : ℚ) ≠ 0 := by
      have hpos : (0 : ℚ) < ((st.tabAccepts + st.escCancels : Nat) : ℚ) := by
        exact_mod_cast h
      exact ne_of_gt hpos
    have ha : (Autocomplete.updateRates st).acceptanceRate =
        (st.tabAccepts : ℚ) / ((st.tabAccepts + st.escCancels : Nat) : ℚ) := by
      unfold Autocomplete.updateRates
      dsimp only
      rw [if_pos h]
    have hc : (Autocomplete.updateRates st).cancelRate =
        (st.escCancels : ℚ) / ((st.tabAccepts + st.escCancels : Nat) : ℚ) := by
      unfold Autocomplete.updateRates
      dsimp only
      rw [if_pos h]
    refine ⟨ha, hc, ?_⟩
    rw [ha, hc, div_add_div_same]
    rw [show ((st.tabAccepts : ℚ) + (st.escCancels : ℚ)) =
          ((st.tabAccepts + st.escCancels : Nat) : ℚ) by push_cast; ring]
    exact div_self hne
  · intro h
    have hni : ¬(st.tabAccepts + st.escCancels > 0) := by omega
    constructor
    · unfold Autocomplete.updateRates
      dsimp only
      rw [if_neg hni]
    · unfold Autocomplete.updateRates
      dsimp only
      rw [if_neg hni]

/-- C8 witness: 2 accepts and 1 cancel give acceptance rate 2/3 and cancel
rate 1/3, summing to 1. -/
theorem c8_rates_witness :
    (Autocomplete.updateRates ⟨2, 1, 3, 0, 0⟩).acceptanceRate = 2 / 3 ∧
    (Autocomplete.updateRates ⟨2, 1, 3, 0, 0⟩).cancelRate = 1 / 3 ∧
    (Autocomplete.updateRates ⟨2, 1, 3, 0, 0⟩).acceptanceRate +
      (Autocomplete.updateRates ⟨2, 1, 3, 0, 0⟩).cancelRate = 1 := by
  obtain ⟨-, h2, -⟩ := c8_rates ⟨2, 1, 3, 0, 0⟩
  obtain ⟨ha, hc, hs⟩ := h2 (by decide)
  refine ⟨?_, ?_, hs⟩
  · rw [ha]
    norm_num
  · rw [hc]
    norm_num

/-! ## C9 — resolving a non-pending suggestion id is a no-op -/

/-- Looking up a key in the map after deleting it yields nothing. -/
theorem lookup_mapDelete (k : String) :
    ∀ m, (Autocomplete.mapDelete m k).lookup k = none := by
  intro m
  induction m with
  | nil => rfl
  | cons x xs ih =>
    obtain ⟨k1, v⟩ := x
    unfold Autocomplete.mapDelete
    rw [List.filter_cons]
    by_cases h : k1 = k
    · rw [if_neg (by simp [h])]
      exact ih
    · rw [if_pos (by simp [h])]
      have hk : (k == k1) = false := beq_eq_false_iff_ne.mpr (Ne.symm h)
      simp only [List.lookup, hk]
      exact ih

/-- The autocomplete drain keeps statistics and pending suggestions intact. -/
theorem auto_drain_keep (x : Autocomplete.ServiceState) :
    (Autocomplete.flushDrain x).2.statistics = x.statistics ∧
    (Autocomplete.flushDrain x).2.pendingSuggestions = x.pendingSuggestions := by
  unfold Autocomplete.flushDrain
  dsimp only
  split <;> exact ⟨rfl, rfl⟩

/-- The autocomplete enqueue keeps statistics and pending suggestions intact. -/
theorem auto_qfr_keep (t : Autocomplete.ServiceState) (a : Autocomplete.InteractionEvent) :
    (Autocomplete.queueForReporting t a).1.statistics = t.statistics ∧
    (Autocomplete.queueForReporting t a).1.pendingSuggestions = t.pendingSuggestions := by
  unfold Autocomplete.queueForReporting
  dsimp only
  split
  · exact ⟨rfl, rfl⟩
  · split
    · exact ⟨(auto_drain_keep _).1, (auto_drain_keep _).2⟩
    · exact ⟨rfl, rfl⟩

/-- What `trackAccept` does when the id is pending: the pending entry is
removed, `tabAccepts` goes up by one, and an event is produced. -/
theorem trackAccept_some (s : Autocomplete.ServiceState) (id : String) (now : Nat)
    (pi : Autocomplete.PendingInfo)
    (h : Autocomplete.mapGet s.pendingSuggestions id = some pi) :
    ((Autocomplete.trackAccept s id now).1).pendingSuggestions =
      Autocomplete.mapDelete s.pendingSuggestions id ∧
    ((Autocomplete.trackAccept s id now).1).statistics.tabAccepts =
      s.statistics.tabAccepts + 1 ∧
    (Autocomplete.trackAccept s id now).2.isSome = true := by
  unfold Autocomplete.trackAccept
  rw [h]
  dsimp only
  refine ⟨?_, ?_, rfl⟩
  · rw [(auto_qfr_keep _ _).2]
  · rw [(updateRates_counters _).1, (auto_qfr_keep _ _).1]

/-- C9: resolving an id that is not pending is a no-op for both accept and
cancel — state unchanged, no event produced — and hence resolving the same id
twice counts it exactly once: the second resolve finds the entry already
removed and changes nothing. -/
theorem c9_resolve_unknown_noop :
    (∀ (s : Autocomplete.ServiceState) (id : String) (now : Nat),
      Autocomplete.mapGet s.pendingSuggestions id = none →
      Autocomplete.trackAccept s id now = (s, none) ∧
      Autocomplete.trackCancel s id now = (s, none)) ∧
    (∀ (s : Autocomplete.ServiceState) (id : String) (now now2 : Nat)
        (pi : Autocomplete.PendingInfo),
      Autocomplete.mapGet s.pendingSuggestions id = some pi →
      Autocomplete.trackAccept ((Autocomplete.trackAccept s id now).1) id now2 =
        ((Autocomplete.trackAccept s id now).1, none) ∧
      ((Autocomplete.trackAccept s id now).1).statistics.tabAccepts =
        s.statistics.tabAccepts + 1) := by
  have hnoopA : ∀ (s : Autocomplete.ServiceState) (id : String) (now : Nat),
      Autocomplete.mapGet s.pendingSuggestions id = none →
      Autocomplete.trackAccept s id now = (s, none) := by
    intro s id now h
    unfold Autocomplete.trackAccept
    rw [h]
  constructor
  · intro s id now h
    refine ⟨hnoopA s id now h, ?_⟩
    unfold Autocomplete.trackCancel
    rw [h]
  · intro s id now now2 pi h
    obtain ⟨hpend, hacc, -⟩ := trackAccept_some s id now pi h
    have hl : Autocomplete.mapGet
        ((Autocomplete.trackAccept s id now).1).pendingSuggestions id = none := by
      rw [hpend]
      exact lookup_mapDelete id s.pendingSuggestions
    exact ⟨hnoopA _ id now2 hl, hacc⟩

/-- C9 witness: resolving an unknown id changes nothing, and accepting the
same displayed suggestion twice counts the accept exactly once. -/
theorem c9_resolve_unknown_noop_witness :
    Autocomplete.trackAccept sPend "zzz" 130 = (sPend, none) ∧
    Autocomplete.trackAccept ((Autocomplete.trackAccept sPend "c1" 130).1) "c1" 140 =
      ((Autocomplete.trackAccept sPend "c1" 130).1, none) ∧
    ((Autocomplete.trackAccept sPend "c1" 130).1).statistics.tabAccepts = 1 := by
  obtain ⟨h1, h2⟩ := c9_resolve_unknown_noop
  have hu := h1 sPend "zzz" 130 (by decide)
  have hd := h2 sPend "c1" 130 140
    { displayTime := 100, completionId := "c1", filepath := "a.ts"
      fileExtension := "ts", modelName := "m", modelProvider := "p"
      completionLength := 4, pfxLength := 2 } (by decide)
  refine ⟨hu.1, hd.1, ?_⟩
  rw [hd.2]
  decide

/-! ## C10 — a failed delivery never alters the accumulated statistics -/

/-- C10: when the delivery of a manual-typing flush fails, the statistics
record is exactly what it was when the flush began — only the queues change;
and the success-path reset (`resetStatisticsAfterReport`) zeroes the three
totals while preserving `lastTypingTime`. -/
theorem c10_stats_preserved_on_failure :
    (∀ (s : ManualTyping.ServiceState) (err : Option ManualTyping.JsError),
      ((ManualTyping.reportEvents s (Except.error err)).1).statistics =
        s.statistics) ∧
    (∀ st : ManualTyping.Statistics,
      (ManualTyping.resetStatisticsAfterReport st).totalCharactersTyped = 0 ∧
      (ManualTyping.resetStatisticsAfterReport st).totalLinesTyped = 0 ∧
      (ManualTyping.resetStatisticsAfterReport st).totalKeystrokes = 0 ∧
      (ManualTyping.resetStatisticsAfterReport st).lastTypingTime =
        st.lastTypingTime) := by
  constructor
  · intro s err
    unfold ManualTyping.reportEvents
    dsimp only
    split <;> rfl
  · intro st
    exact ⟨rfl, rfl, rfl, rfl⟩
